import Mathlib

/-!
Verification of the cluster-api-provider-azure sample: the kubeconfig
credential-exchange workflow (`cmd` package: `GetKubeloginExecutablePath`,
`ExecCommand`, `ConvertKubeConfig`), the node-pool spec derivation of the
managed-control-plane Scope, and the generic reconciler-service pattern.

Side-effecting Go code is embedded as explicit state passing: a `Sys` record
holds the process environment (association list, `os.Setenv`/`os.LookupEnv`
semantics), the filesystem (path-to-content association list), and an ordered
trace of the externally visible effects.  Outcomes of calls into the outside
world (`os.WriteFile` failure, secret resolution, `exec.LookPath`, the child
process run, `os.ReadFile` failure) are supplied by a `World` oracle so that
theorems quantify over every possible run.
-/

namespace CAPZ

/-- One observable side effect of the workflow, recorded in order. -/
inductive Event where
  | envRead (name : String)
  | envWrite (name : String) (value : String)
  | envUnset (name : String)
  | fileWrite (path : String) (content : String)
  | fileRemove (path : String)
  | fileRead (path : String)
  | procRun (path : String) (args : List String) (childEnv : List (String × String))
deriving DecidableEq, Repr

/-- Process environment: association list, first binding wins. -/
def lookupEnv (e : List (String × String)) (k : String) : Option String :=
  (e.find? (fun p => p.1 == k)).map Prod.snd

/-- `os.Getenv`: empty string when the variable is unset. -/
def getEnvD (e : List (String × String)) (k : String) : String :=
  (lookupEnv e k).getD ""

/-- `os.Setenv`: replace any existing binding of `k`. -/
def setEnvL (e : List (String × String)) (k v : String) : List (String × String) :=
  (k, v) :: e.filter (fun p => p.1 != k)

/-- `os.Unsetenv`: drop every binding of `k`. -/
def unsetEnvL (e : List (String × String)) (k : String) : List (String × String) :=
  e.filter (fun p => p.1 != k)

/-- Filesystem: association list from path to content, first binding wins. -/
def lookupFile (fs : List (String × String)) (p : String) : Option String :=
  (fs.find? (fun q => q.1 == p)).map Prod.snd

/-- `os.WriteFile`: create or overwrite. -/
def writeFileL (fs : List (String × String)) (p c : String) : List (String × String) :=
  (p, c) :: fs.filter (fun q => q.1 != p)

/-- `os.Remove`: drop the path. -/
def removeFileL (fs : List (String × String)) (p : String) : List (String × String) :=
  fs.filter (fun q => q.1 != p)

/-- Process-visible state threaded through the embedded code. -/
structure Sys where
  env : List (String × String)
  files : List (String × String)
  trace : List Event
deriving Repr

def Sys.log (st : Sys) (e : Event) : Sys :=
  { st with trace := st.trace ++ [e] }

/-- `os.LookupEnv`, with the read recorded in the trace. -/
def Sys.envLookup (st : Sys) (k : String) : Option String × Sys :=
  (lookupEnv st.env k, st.log (.envRead k))

/-- `os.Getenv`, with the read recorded in the trace. -/
def Sys.envGet (st : Sys) (k : String) : String × Sys :=
  (getEnvD st.env k, st.log (.envRead k))

/-- `os.Setenv`, recorded in the trace. -/
def Sys.envSet (st : Sys) (k v : String) : Sys :=
  { st with env := setEnvL st.env k v, trace := st.trace ++ [.envWrite k v] }

/-- `os.Unsetenv`, recorded in the trace. -/
def Sys.envUnset (st : Sys) (k : String) : Sys :=
  { st with env := unsetEnvL st.env k, trace := st.trace ++ [.envUnset k] }

/-- `os.WriteFile` (successful case), recorded in the trace. -/
def Sys.fsWrite (st : Sys) (p c : String) : Sys :=
  { st with files := writeFileL st.files p c, trace := st.trace ++ [.fileWrite p c] }

/-- `os.Remove`, recorded in the trace. -/
def Sys.fsRemove (st : Sys) (p : String) : Sys :=
  { st with files := removeFileL st.files p, trace := st.trace ++ [.fileRemove p] }

/-- `os.ReadFile` lookup (successful case), recorded in the trace. -/
def Sys.fsRead (st : Sys) (p : String) : Option String × Sys :=
  (lookupFile st.files p, st.log (.fileRead p))

/-- Go `error` values produced by the workflow, structured enough to state
which constructor wrapped which text. -/
inductive GoErr where
  | msg (s : String)
  | wrap (outer : String) (inner : GoErr)
  | lookPathErr (cmdName : String)
  | writeErr (path : String)
  | readErr (path : String)
deriving DecidableEq, Repr

/-- Outcome of `cmd.Run` for the child process. -/
inductive RunOutcome where
  | success
  | failure (exitCode : Nat) (stderr : String)
deriving DecidableEq, Repr

/-- Oracle fixing the outcomes of the calls that leave the process. -/
structure World where
  /-- `os.TempDir()`. -/
  tempDir : String
  /-- whether `os.WriteFile` succeeds. -/
  writeOk : Bool
  /-- `exec.LookPath`: resolved absolute path, or `none` if not found. -/
  lookPath : String → Option String
  /-- result of `cmd.Run` on the helper. -/
  run : RunOutcome
  /-- effect of a successful helper run on the filesystem
      (the helper mutates the kubeconfig file in place). -/
  childFS : List (String × String) → List (String × String)
  /-- whether `os.ReadFile` succeeds (given the file exists). -/
  readOk : Bool

def KubeloginDefault : String := "kubelogin"
def KubeloginEnvVarName : String := "KUBELOGIN_PATH"
def KubeConfigEnvVarName : String := "KUBECONFIG"

/-- `GetKubeloginExecutablePath` returns the location of the kubelogin binary:
the `KUBELOGIN_PATH` override when set, else the default name. -/
def GetKubeloginExecutablePath (st : Sys) : String × Sys :=
  let (kubeloginPath, st) := st.envLookup KubeloginEnvVarName
  match kubeloginPath with
  | some p => (p, st)
  | none => (KubeloginDefault, st)

/-- `ExecCommand`: resolve the executable with `exec.LookPath`; run it with a
child environment of exactly `HOME` and `PATH` taken from the ambient
environment; on a failing run return `errors.New` of the captured stderr,
discarding the run error itself. -/
def ExecCommand (w : World) (st : Sys) (cmdName : String) (cmdArgs : List String) :
    Option GoErr × Sys :=
  match w.lookPath cmdName with
  | none => (some (.lookPathErr cmdName), st)
  | some path =>
    let (home, st) := st.envGet "HOME"
    let (pathVar, st) := st.envGet "PATH"
    let childEnv := [("HOME", home), ("PATH", pathVar)]
    let st := st.log (.procRun path cmdArgs childEnv)
    match w.run with
    | .success => (none, { st with files := w.childFS st.files })
    | .failure _ stderr => (some (.msg stderr), st)

/-- Credentials provider for a managed control plane: synchronous accessors
plus the (oracle-fixed) outcome of `GetClientSecret(ctx)`. -/
structure CredsProvider where
  clientID : String
  tenantID : String
  secretResult : Except GoErr String
deriving Repr

/-- Temp file path used by `ConvertKubeConfig`:
`fmt.Sprintf("%s/kubeconfig-%s", os.TempDir(), clusterName)`. -/
def tempKubeconfigPath (tempDir clusterName : String) : String :=
  tempDir ++ "/kubeconfig-" ++ clusterName

/-- Body of `ConvertKubeConfig` after the deferred cleanup is registered:
point `KUBECONFIG` at the temp file, write the config bytes, resolve the
client secret, locate and run the helper, read the mutated file back. -/
def convertBody (w : World) (st : Sys) (fileName : String) (configData : String)
    (provider : CredsProvider) : Except GoErr String × Sys :=
  let st := st.envSet KubeConfigEnvVarName fileName
  if w.writeOk then
    let st := st.fsWrite fileName configData
    match provider.secretResult with
    | .error e => (.error (.wrap "failed to get client secret" e), st)
    | .ok clientSecret =>
      let (kubeLogin, st) := GetKubeloginExecutablePath st
      let (kubeconfigArg, st) := st.envGet KubeConfigEnvVarName
      let (execErr, st) := ExecCommand w st kubeLogin
        ["convert-kubeconfig", "-l", "spn", "--client-id", provider.clientID,
         "--client-secret", clientSecret, "--tenant-id", provider.tenantID,
         "--kubeconfig", kubeconfigArg]
      match execErr with
      | some e =>
        (.error (.wrap "could not convert kubeconfig to non interactive format" e), st)
      | none =>
        if w.readOk then
          let (content, st) := st.fsRead fileName
          match content with
          | some c => (.ok c, st)
          | none => (.error (.readErr fileName), st)
        else
          let st := st.log (.fileRead fileName)
          (.error (.readErr fileName), st)
  else
    (.error (.writeErr fileName), st)

/-- The deferred cleanup of `ConvertKubeConfig`: restore `KUBECONFIG` to its
remembered prior value (or unset it), then remove the temp file. -/
def convertCleanup (prior : Option String) (fileName : String) (st : Sys) : Sys :=
  let st := match prior with
    | some v => st.envSet KubeConfigEnvVarName v
    | none => st.envUnset KubeConfigEnvVarName
  st.fsRemove fileName

/-- `ConvertKubeConfig` converts a kubeconfig from interactive to
non-interactive login via the kubelogin helper: nil-provider guard, temp file
keyed by cluster name, remembered `KUBECONFIG`, body, deferred cleanup. -/
def ConvertKubeConfig (w : World) (st : Sys) (clusterName : String)
    (configData : String) (credentialsProvider : Option CredsProvider) :
    Except GoErr String × Sys :=
  match credentialsProvider with
  | none => (.error (.msg "cannot convert kubeconfig without credential provider"), st)
  | some provider =>
    let fileName := tempKubeconfigPath w.tempDir clusterName
    let pr := st.envLookup KubeConfigEnvVarName
    let kubeConfigToRestore := pr.1
    let r := convertBody w pr.2 fileName configData provider
    (r.1, convertCleanup kubeConfigToRestore fileName r.2)

/-! ## Node-pool spec derivation (Scope)

The implementation of `ManagedControlPlaneScope.AgentPoolSpec` is not among
the provided sources; only its test (`managedcontrolplane_test.go`) is.  The
derivation below is therefore modelled from the spec (§4.2), consistent with
the expectations of that test. -/

/-- `ManagedMachinePoolScaling`: scaling policy of an infrastructure pool,
with optional minimum and maximum sizes. -/
structure ManagedMachinePoolScaling where
  minSize : Option Int
  maxSize : Option Int
deriving DecidableEq, Repr

/-- Infrastructure node-pool object: name, SKU, declared mode, optional
scaling policy. -/
structure InfraPool where
  name : String
  sku : String
  mode : String
  scaling : Option ManagedMachinePoolScaling
deriving DecidableEq, Repr

/-- Cluster-side inputs of the derivation: cluster name, subscription id, and
the independently optional resource-group / virtual-network / subnet names. -/
structure ClusterObj where
  name : String
  subscriptionID : String
  resourceGroup : Option String
  vnetName : Option String
  subnetName : Option String
deriving DecidableEq, Repr

/-- `azure.AgentPoolSpec` as observed by the test: autoscaling fields are
pointers in Go, hence `Option` here — absent is `none`, never a zero value. -/
structure AgentPoolSpec where
  name : String
  sku : String
  replicas : Int
  mode : String
  cluster : String
  vnetSubnetID : String
  enableAutoScaling : Option Bool
  minCount : Option Int
  maxCount : Option Int
deriving DecidableEq, Repr

/-- Modelled from the spec: the `VnetSubnetID` template of §4.2 step 4 (the
Scope code composing it is not among the provided sources).  Each optional
segment substitutes the empty string when absent. -/
def vnetSubnetID (sub rg vnet subnet : String) : String :=
  "/subscriptions/" ++ sub ++ "/resourceGroups/" ++ rg ++
    "/providers/Microsoft.Network/virtualNetworks/" ++ vnet ++ "/subnets/" ++ subnet

/-- Modelled from the spec: `ControlPlaneScope.DeriveNodePoolSpec` (§4.2),
whose implementation (`ManagedControlPlaneScope.AgentPoolSpec`) is not among
the provided sources — only its test is.  Name/SKU/Mode copied from the infra
pool, Cluster from the cluster, Replicas at the constant baseline 1,
autoscaling fields absent without a scaling policy and copied from it
otherwise, VnetSubnetID from the fixed template. -/
def deriveNodePoolSpec (cluster : ClusterObj) (infraPool : InfraPool) : AgentPoolSpec :=
  { name := infraPool.name
    sku := infraPool.sku
    replicas := 1
    mode := infraPool.mode
    cluster := cluster.name
    vnetSubnetID := vnetSubnetID cluster.subscriptionID
      (cluster.resourceGroup.getD "") (cluster.vnetName.getD "")
      (cluster.subnetName.getD "")
    enableAutoScaling := match infraPool.scaling with
      | none => none
      | some _ => some true
    minCount := match infraPool.scaling with
      | none => none
      | some s => s.minSize
    maxCount := match infraPool.scaling with
      | none => none
      | some s => s.maxSize }

/-! ## ReconcilerService (generic pattern)

The services' `Reconcile` implementations are not among the provided sources;
only the mocked Scope interfaces (`RoleAssignmentSpecs`, `VMSSExtensionSpecs`)
are.  The reconciler below is modelled from the spec (§4.3, §5). -/

/-- Modelled from the spec: `ReconcilerService.Reconcile` (§4.3), whose
implementations (the roleassignments / vmssextensions services) are not among
the provided sources — only their mocked Scope interfaces are.  Every spec in
the list obtained from the Scope is attempted against the cloud API; a
per-spec failure is recorded against that spec and does not abort the
remaining specs.  Returns the list of specs attempted (in order) and the
aggregate of all per-spec failures, empty if none. -/
def reconcileSpecs {Spec CloudErr : Type} (specs : List Spec)
    (cloudAPI : Spec → Option CloudErr) : List Spec × List (Spec × CloudErr) :=
  (specs, specs.filterMap (fun s => (cloudAPI s).map (fun e => (s, e))))

/-! ## Observables of a trace -/

/-- The environment variable an event reads or writes, if any. -/
def Event.envName : Event → Option String
  | .envRead n => some n
  | .envWrite n _ => some n
  | .envUnset n => some n
  | _ => none

/-- Names of all environment variables read or written along a trace. -/
def envTouched (tr : List Event) : List String :=
  tr.filterMap Event.envName

/-- Child-process environments passed along a trace. -/
def procEnvs (tr : List Event) : List (List (String × String)) :=
  tr.filterMap (fun e => match e with
    | .procRun _ _ childEnv => some childEnv
    | _ => none)

/-- The user-visible message of a Go error: `errors.Wrap` renders as
`outer: inner`. -/
def GoErr.message : GoErr → String
  | .msg s => s
  | .wrap outer inner => outer ++ ": " ++ inner.message
  | .lookPathErr cmdName => "exec: " ++ cmdName ++ ": executable file not found in $PATH"
  | .writeErr path => "write " ++ path ++ ": I/O error"
  | .readErr path => "read " ++ path ++ ": I/O error"

/-- Whether an event touches only the environment variables the workflow is
documented to use: `HOME`, `PATH`, `KUBECONFIG`, `KUBELOGIN_PATH`. -/
def allowedEnvEvent (e : Event) : Bool :=
  match e.envName with
  | none => true
  | some n => n == "HOME" || n == "PATH" || n == KubeConfigEnvVarName ||
      n == KubeloginEnvVarName

/-! ## Concrete fixtures (sample runs used to instantiate the theorems) -/

/-- A run in which every external call succeeds and the helper leaves the
filesystem unchanged. -/
def sampleWorld : World :=
  { tempDir := "/tmp", writeOk := true, lookPath := fun _ => some "/bin/kubelogin",
    run := .success, childFS := fun fs => fs, readOk := true }

/-- Initial process state with ambient `HOME` and `PATH` only. -/
def sampleSys : Sys :=
  { env := [("HOME", "/root"), ("PATH", "/bin")], files := [], trace := [] }

/-- A provider whose client secret resolves successfully. -/
def sampleProvider : CredsProvider :=
  { clientID := "cid", tenantID := "tid", secretResult := .ok "sec" }

/-- A run in which the helper exits non-zero having written nothing to
standard error. -/
def failWorld : World :=
  { tempDir := "/tmp", writeOk := true, lookPath := fun _ => some "/bin/kubelogin",
    run := .failure 3 "", childFS := fun fs => fs, readOk := true }

/-- A run in which the helper exits non-zero with diagnostic text on
standard error. -/
def helperFailWorld : World :=
  { tempDir := "/tmp", writeOk := true, lookPath := fun _ => some "/bin/kubelogin",
    run := .failure 1 "helper exploded", childFS := fun fs => fs, readOk := true }

/-- The cluster of the derivation test: fixed subscription id, absent
resource-group / virtual-network / subnet names. -/
def sampleCluster : ClusterObj :=
  { name := "cluster1", subscriptionID := "00000000-0000-0000-0000-000000000000",
    resourceGroup := none, vnetName := none, subnetName := none }

/-- The scaled pool of the derivation test: mode User, scaling {min 2, max 10}. -/
def scaledPool : InfraPool :=
  { name := "pool1", sku := "Standard_D2s_v3", mode := "User",
    scaling := some { minSize := some 2, maxSize := some 10 } }

/-! ## Basic lemmas about the environment and filesystem model -/

theorem find?_filter_ne (e : List (String × String)) (k k' : String) (h : k' ≠ k) :
    (e.filter (fun p => p.1 != k)).find? (fun p => p.1 == k') =
      e.find? (fun p => p.1 == k') := by
  induction e with
  | nil => rfl
  | cons a e ih =>
    by_cases ha : a.1 = k
    · have hne : (a.1 != k) = false := by simp [ha]
      have h2 : (a.1 == k') = false := by
        refine beq_eq_false_iff_ne.2 ?_
        rw [ha]
        exact fun hh => h hh.symm
      simp only [List.filter_cons, hne, Bool.false_eq_true, if_false, List.find?_cons, h2, ih]
    · have hne : (a.1 != k) = true := by simp [ha]
      by_cases hk : a.1 = k'
      · have h2 : (a.1 == k') = true := by simp [hk]
        simp only [List.filter_cons, hne, if_true, List.find?_cons, h2]
      · have h2 : (a.1 == k') = false := by simp [hk]
        simp only [List.filter_cons, hne, if_true, List.find?_cons, h2, ih]

theorem lookupEnv_setEnvL_self (e : List (String × String)) (k v : String) :
    lookupEnv (setEnvL e k v) k = some v := by
  simp [lookupEnv, setEnvL, List.find?]

theorem lookupEnv_setEnvL_ne (e : List (String × String)) (k v k' : String) (h : k' ≠ k) :
    lookupEnv (setEnvL e k v) k' = lookupEnv e k' := by
  have hk : (((k, v) : String × String).1 == k') = false := by
    refine beq_eq_false_iff_ne.2 ?_
    exact fun hh => h hh.symm
  simp only [lookupEnv, setEnvL, List.find?_cons, hk, find?_filter_ne e k k' h]

theorem getEnvD_setEnvL_ne (e : List (String × String)) (k v k' : String) (h : k' ≠ k) :
    getEnvD (setEnvL e k v) k' = getEnvD e k' := by
  simp only [getEnvD, lookupEnv_setEnvL_ne e k v k' h]

theorem lookupEnv_unsetEnvL_self (e : List (String × String)) (k : String) :
    lookupEnv (unsetEnvL e k) k = none := by
  simp only [lookupEnv, unsetEnvL, Option.map_eq_none']
  rw [List.find?_eq_none]
  intro x hx
  have hmem := List.mem_filter.1 hx
  simpa using hmem.2

theorem lookupFile_removeFileL_self (fs : List (String × String)) (p : String) :
    lookupFile (removeFileL fs p) p = none := by
  simp only [lookupFile, removeFileL, Option.map_eq_none']
  rw [List.find?_eq_none]
  intro x hx
  have hmem := List.mem_filter.1 hx
  simpa using hmem.2

theorem convertCleanup_env (prior : Option String) (f : String) (st : Sys) :
    lookupEnv (convertCleanup prior f st).env KubeConfigEnvVarName = prior := by
  cases prior <;>
    simp [convertCleanup, Sys.fsRemove, Sys.envSet, Sys.envUnset,
      lookupEnv_setEnvL_self, lookupEnv_unsetEnvL_self]

theorem convertCleanup_file (prior : Option String) (f : String) (st : Sys) :
    lookupFile (convertCleanup prior f st).files f = none := by
  cases prior <;>
    simp [convertCleanup, Sys.fsRemove, Sys.envSet, Sys.envUnset,
      lookupFile_removeFileL_self]



theorem getKubelogin_state (st : Sys) :
    ∃ kl, GetKubeloginExecutablePath st = (kl, st.log (.envRead KubeloginEnvVarName)) := by
  unfold GetKubeloginExecutablePath Sys.envLookup
  cases lookupEnv st.env KubeloginEnvVarName <;> exact ⟨_, rfl⟩

theorem convertBody_trace (w : World) (st : Sys) (f d : String) (p : CredsProvider) :
    ∃ tl, (convertBody w st f d p).2.trace = st.trace ++ tl ∧
      (∀ e ∈ tl, allowedEnvEvent e = true) ∧
      (w.writeOk = true → Event.fileWrite f d ∈ tl) ∧
      (∀ path args cenv, Event.procRun path args cenv ∈ tl →
        cenv = [("HOME", getEnvD st.env "HOME"), ("PATH", getEnvD st.env "PATH")]) := by
  have hHome : getEnvD (setEnvL st.env KubeConfigEnvVarName f) "HOME" = getEnvD st.env "HOME" :=
    getEnvD_setEnvL_ne _ _ _ _ (by decide)
  have hPath : getEnvD (setEnvL st.env KubeConfigEnvVarName f) "PATH" = getEnvD st.env "PATH" :=
    getEnvD_setEnvL_ne _ _ _ _ (by decide)
  cases hw : w.writeOk with
  | false =>
    refine ⟨[Event.envWrite KubeConfigEnvVarName f], ?_, ?_, ?_, ?_⟩
    · simp [convertBody, Sys.envSet, hw]
    · intro e he
      simp only [List.mem_singleton] at he
      subst he; rfl
    · intro h; exact absurd h (by simp)
    · intro path args cenv hmem
      simp at hmem
  | true =>
    cases hs : p.secretResult with
    | error e0 =>
      refine ⟨[Event.envWrite KubeConfigEnvVarName f, Event.fileWrite f d], ?_, ?_, ?_, ?_⟩
      · simp [convertBody, Sys.envSet, Sys.fsWrite, hw, hs]
      · intro e he
        simp only [List.mem_cons, List.mem_singleton, List.not_mem_nil, or_false] at he
        rcases he with rfl | rfl <;> rfl
      · intro _; simp
      · intro path args cenv hmem
        simp at hmem
    | ok sec =>
      obtain ⟨kl, hkl⟩ := getKubelogin_state
        { env := setEnvL st.env KubeConfigEnvVarName f,
          files := writeFileL st.files f d,
          trace := st.trace ++ [Event.envWrite KubeConfigEnvVarName f, Event.fileWrite f d] }
      cases hlp : w.lookPath kl with
      | none =>
        refine ⟨[Event.envWrite KubeConfigEnvVarName f, Event.fileWrite f d,
          Event.envRead KubeloginEnvVarName, Event.envRead KubeConfigEnvVarName], ?_, ?_, ?_, ?_⟩
        · simp [convertBody, Sys.envSet, Sys.fsWrite, Sys.envGet, Sys.log,
            ExecCommand, hw, hs, hkl, hlp]
        · intro e he
          simp only [List.mem_cons, List.mem_singleton, List.not_mem_nil, or_false] at he
          rcases he with rfl | rfl | rfl | rfl <;> rfl
        · intro _; simp
        · intro path args cenv hmem
          simp at hmem
      | some path0 =>
        cases hr : w.run with
        | failure code stderr =>
          refine ⟨[Event.envWrite KubeConfigEnvVarName f, Event.fileWrite f d,
            Event.envRead KubeloginEnvVarName, Event.envRead KubeConfigEnvVarName,
            Event.envRead "HOME", Event.envRead "PATH",
            Event.procRun path0
              ["convert-kubeconfig", "-l", "spn", "--client-id", p.clientID,
               "--client-secret", sec, "--tenant-id", p.tenantID, "--kubeconfig",
               getEnvD (setEnvL st.env KubeConfigEnvVarName f) KubeConfigEnvVarName]
              [("HOME", getEnvD st.env "HOME"), ("PATH", getEnvD st.env "PATH")]],
            ?_, ?_, ?_, ?_⟩
          · simp [convertBody, Sys.envSet, Sys.fsWrite, Sys.envGet, Sys.log,
              ExecCommand, hw, hs, hkl, hlp, hr, hHome, hPath]
          · intro e he
            simp only [List.mem_cons, List.mem_singleton, List.not_mem_nil, or_false] at he
            rcases he with rfl | rfl | rfl | rfl | rfl | rfl | rfl <;> rfl
          · intro _; simp
          · intro path args cenv hmem
            simp at hmem
            exact hmem.2.2
        | success =>
          refine ⟨[Event.envWrite KubeConfigEnvVarName f, Event.fileWrite f d,
            Event.envRead KubeloginEnvVarName, Event.envRead KubeConfigEnvVarName,
            Event.envRead "HOME", Event.envRead "PATH",
            Event.procRun path0
              ["convert-kubeconfig", "-l", "spn", "--client-id", p.clientID,
               "--client-secret", sec, "--tenant-id", p.tenantID, "--kubeconfig",
               getEnvD (setEnvL st.env KubeConfigEnvVarName f) KubeConfigEnvVarName]
              [("HOME", getEnvD st.env "HOME"), ("PATH", getEnvD st.env "PATH")],
            Event.fileRead f], ?_, ?_, ?_, ?_⟩
          · cases hro : w.readOk with
            | false =>
              simp [convertBody, Sys.envSet, Sys.fsWrite, Sys.envGet, Sys.log,
                ExecCommand, hw, hs, hkl, hlp, hr, hro, hHome, hPath]
            | true =>
              cases hlf : lookupFile (w.childFS (writeFileL st.files f d)) f with
              | none =>
                simp [convertBody, Sys.envSet, Sys.fsWrite, Sys.envGet, Sys.log, Sys.fsRead,
                  ExecCommand, hw, hs, hkl, hlp, hr, hro, hlf, hHome, hPath]
              | some c =>
                simp [convertBody, Sys.envSet, Sys.fsWrite, Sys.envGet, Sys.log, Sys.fsRead,
                  ExecCommand, hw, hs, hkl, hlp, hr, hro, hlf, hHome, hPath]
          · intro e he
            simp only [List.mem_cons, List.mem_singleton, List.not_mem_nil, or_false] at he
            rcases he with rfl | rfl | rfl | rfl | rfl | rfl | rfl | rfl <;> rfl
          · intro _; simp
          · intro path args cenv hmem
            simp at hmem
            exact hmem.2.2


theorem convertCleanup_trace (prior : Option String) (f : String) (st : Sys) :
    ∃ c1, (convertCleanup prior f st).trace = st.trace ++ [c1, Event.fileRemove f] ∧
      allowedEnvEvent c1 = true ∧ c1.envName = some KubeConfigEnvVarName := by
  cases prior with
  | none =>
    exact ⟨Event.envUnset KubeConfigEnvVarName,
      by simp [convertCleanup, Sys.envUnset, Sys.fsRemove], rfl, rfl⟩
  | some v =>
    exact ⟨Event.envWrite KubeConfigEnvVarName v,
      by simp [convertCleanup, Sys.envSet, Sys.fsRemove], rfl, rfl⟩

/-! ## Trace composition for the full conversion -/

theorem convertKubeConfig_trace (w : World) (st : Sys) (n d : String) (p : CredsProvider) :
    ∃ tl, (ConvertKubeConfig w st n d (some p)).2.trace = st.trace ++ tl ∧
      (∀ e ∈ tl, allowedEnvEvent e = true) ∧
      (w.writeOk = true →
        Event.fileWrite (tempKubeconfigPath w.tempDir n) d ∈ tl) ∧
      (∀ path args cenv, Event.procRun path args cenv ∈ tl →
        cenv = [("HOME", getEnvD st.env "HOME"), ("PATH", getEnvD st.env "PATH")]) := by
  obtain ⟨tl, htl, hallow, hfw, hproc⟩ := convertBody_trace w
    (st.log (.envRead KubeConfigEnvVarName)) (tempKubeconfigPath w.tempDir n) d p
  obtain ⟨c1, hc1, hc1a, hc1n⟩ := convertCleanup_trace
    (lookupEnv st.env KubeConfigEnvVarName) (tempKubeconfigPath w.tempDir n)
    (convertBody w (st.log (.envRead KubeConfigEnvVarName)) (tempKubeconfigPath w.tempDir n) d p).2
  have hck : (ConvertKubeConfig w st n d (some p)).2 =
      convertCleanup (lookupEnv st.env KubeConfigEnvVarName) (tempKubeconfigPath w.tempDir n)
        (convertBody w (st.log (.envRead KubeConfigEnvVarName))
          (tempKubeconfigPath w.tempDir n) d p).2 := rfl
  refine ⟨Event.envRead KubeConfigEnvVarName ::
    (tl ++ [c1, Event.fileRemove (tempKubeconfigPath w.tempDir n)]), ?_, ?_, ?_, ?_⟩
  · rw [hck, hc1, htl]
    simp [Sys.log, List.append_assoc]
  · intro e he
    rcases List.mem_cons.1 he with rfl | he
    · rfl
    rcases List.mem_append.1 he with he | he
    · exact hallow e he
    · rcases List.mem_cons.1 he with rfl | he
      · exact hc1a
      · rcases List.mem_singleton.1 he with rfl
        rfl
  · intro hwr
    exact List.mem_cons_of_mem _ (List.mem_append_left _ (hfw hwr))
  · intro path args cenv hmem
    rcases List.mem_cons.1 hmem with h | hmem
    · simp at h
    rcases List.mem_append.1 hmem with hmem | hmem
    · have := hproc path args cenv hmem
      simpa [Sys.log] using this
    · rcases List.mem_cons.1 hmem with h | hmem
      · rw [← h] at hc1n
        simp [Event.envName] at hc1n
      · rcases List.mem_singleton.1 hmem with h
        simp at h

/-! ## Claim theorems -/

/-- Claim C3: on every exit path of `ConvertKubeConfig` after the
nil-provider check passes — the theorem quantifies over every oracle outcome,
so it covers success, temp-file write failure, client-secret failure, helper
lookup or exit failure, and read-back failure — the `KUBECONFIG` environment
reference is restored to its prior value (present if it was present, absent
if it was absent), and the temporary file is absent from the final
filesystem. -/
theorem convertKubeConfig_restores_env_and_deletes_tempfile
    (w : World) (st : Sys) (clusterName configData : String) (p : CredsProvider) :
    lookupEnv (ConvertKubeConfig w st clusterName configData (some p)).2.env
        KubeConfigEnvVarName = lookupEnv st.env KubeConfigEnvVarName ∧
    lookupFile (ConvertKubeConfig w st clusterName configData (some p)).2.files
        (tempKubeconfigPath w.tempDir clusterName) = none := by
  simp only [ConvertKubeConfig, Sys.envLookup]
  exact ⟨convertCleanup_env _ _ _, convertCleanup_file _ _ _⟩

/-- Claim C5: with a nil credentials provider, `ConvertKubeConfig` fails
immediately with the configuration error and returns no config bytes; the
returned state is exactly the input state — its files, environment, and
effect trace unchanged — so no file I/O, environment-variable modification,
or process invocation occurred. -/
theorem convertKubeConfig_nil_provider (w : World) (st : Sys)
    (clusterName configData : String) :
    ConvertKubeConfig w st clusterName configData none =
      (.error (.msg "cannot convert kubeconfig without credential provider"), st) := rfl

theorem convertBody_helper_failure (w : World) (st : Sys) (f d : String)
    (p : CredsProvider) (sec path : String) (code : Nat) (stderr : String)
    (hw : w.writeOk = true) (hsec : p.secretResult = .ok sec)
    (hfind : w.lookPath = fun _ => some path) (hrun : w.run = .failure code stderr) :
    (convertBody w st f d p).1 =
      .error (.wrap "could not convert kubeconfig to non interactive format" (.msg stderr)) := by
  obtain ⟨kl, hkl⟩ := getKubelogin_state
    { env := setEnvL st.env KubeConfigEnvVarName f,
      files := writeFileL st.files f d,
      trace := st.trace ++ [Event.envWrite KubeConfigEnvVarName f, Event.fileWrite f d] }
  simp [convertBody, Sys.envSet, Sys.fsWrite, Sys.envGet, Sys.log, ExecCommand,
    hw, hsec, hkl, hfind, hrun]

/-- Claim C6: when the helper executable is found and its run exits with
non-zero status, `ConvertKubeConfig` fails with the conversion-failure
wrapping of the error carrying the captured standard-error text, and returns
no config bytes; the wrapped error's message is the conversion-failure text
followed by the captured stderr. -/
theorem convertKubeConfig_helper_failure (w : World) (st : Sys)
    (clusterName configData : String) (p : CredsProvider) (sec path : String)
    (code : Nat) (stderr : String)
    (hw : w.writeOk = true) (hsec : p.secretResult = .ok sec)
    (hfind : w.lookPath = fun _ => some path) (hrun : w.run = .failure code stderr) :
    (ConvertKubeConfig w st clusterName configData (some p)).1 =
      .error (.wrap "could not convert kubeconfig to non interactive format" (.msg stderr)) ∧
    (GoErr.wrap "could not convert kubeconfig to non interactive format"
       (.msg stderr)).message =
      "could not convert kubeconfig to non interactive format: " ++ stderr := by
  constructor
  · exact convertBody_helper_failure w (st.log (.envRead KubeConfigEnvVarName))
      (tempKubeconfigPath w.tempDir clusterName) configData p sec path code stderr
      hw hsec hfind hrun
  · rfl

/-- Claim C6 witness: a concrete run in which the helper exits 1 with
"helper exploded" on stderr. -/
theorem convertKubeConfig_helper_failure_witness :
    (ConvertKubeConfig helperFailWorld sampleSys "cluster1" "cfg"
      (some sampleProvider)).1 =
      .error (.wrap "could not convert kubeconfig to non interactive format"
        (.msg "helper exploded")) :=
  (convertKubeConfig_helper_failure helperFailWorld sampleSys "cluster1" "cfg"
    sampleProvider "sec" "/bin/kubelogin" 1 "helper exploded" rfl rfl rfl rfl).1

/-- Claim C10: when the executable is found on the search path and the child
process exits non-zero, the error returned by `ExecCommand` is `errors.New`
of exactly the text captured on the child's standard error — its message is
that text, the empty string if the child wrote nothing — and the child's own
exit error is discarded: the result is the same for every exit code. -/
theorem execCommand_returns_stderr_text (w : World) (st : Sys) (cmdName : String)
    (cmdArgs : List String) (path : String) (code : Nat) (stderr : String)
    (hfind : w.lookPath cmdName = some path) (hrun : w.run = .failure code stderr) :
    (ExecCommand w st cmdName cmdArgs).1 = some (.msg stderr) ∧
    (GoErr.msg stderr).message = stderr ∧
    (∀ code' : Nat,
      (ExecCommand { w with run := .failure code' stderr } st cmdName cmdArgs).1 =
        some (.msg stderr)) := by
  refine ⟨?_, rfl, ?_⟩
  · simp [ExecCommand, hfind, Sys.envGet, Sys.log, hrun]
  · intro code'
    simp [ExecCommand, hfind, Sys.envGet, Sys.log]

/-- Claim C10 witness: a concrete run whose child wrote nothing to standard
error — the returned error message is the empty string. -/
theorem execCommand_returns_stderr_text_witness :
    (ExecCommand failWorld sampleSys "kubelogin" []).1 = some (.msg "") :=
  (execCommand_returns_stderr_text failWorld sampleSys "kubelogin" []
    "/bin/kubelogin" 3 "" rfl rfl).1

/-- Claim C8, counterexample to the claim as stated: at a concrete invocation
of `ConvertKubeConfig`, it is not the case that (a) every child-process
environment is exactly ambient HOME/PATH and (b) no environment variable
other than HOME and PATH is read or written — the workflow writes the
process-wide `KUBECONFIG` reference (and reads `KUBELOGIN_PATH`). -/
theorem convertKubeConfig_env_footprint_counterexample :
    ¬ ((∀ cenv ∈ procEnvs
          (ConvertKubeConfig sampleWorld sampleSys "cluster1" "cfg"
            (some sampleProvider)).2.trace,
        cenv = [("HOME", "/root"), ("PATH", "/bin")]) ∧
      (∀ nm ∈ envTouched
          (ConvertKubeConfig sampleWorld sampleSys "cluster1" "cfg"
            (some sampleProvider)).2.trace,
        nm = "HOME" ∨ nm = "PATH")) := by
  decide

/-- Claim C8 as amended: the environment passed to the helper child process
consists of exactly the ambient `HOME` and `PATH` values, propagated
unchanged; but beyond those, the workflow also reads and writes the
process-wide `KUBECONFIG` reference and reads the `KUBELOGIN_PATH`
helper-location override — no environment state outside
{HOME, PATH, KUBECONFIG, KUBELOGIN_PATH} is read or written. -/
theorem convertKubeConfig_env_footprint (w : World) (st : Sys)
    (clusterName configData : String) (p : CredsProvider) :
    (∀ path args cenv, Event.procRun path args cenv ∈
        (ConvertKubeConfig w st clusterName configData (some p)).2.trace →
      Event.procRun path args cenv ∈ st.trace ∨
      cenv = [("HOME", getEnvD st.env "HOME"), ("PATH", getEnvD st.env "PATH")]) ∧
    (∀ e ∈ (ConvertKubeConfig w st clusterName configData (some p)).2.trace,
      e ∈ st.trace ∨ allowedEnvEvent e = true) := by
  obtain ⟨tl, htl, hallow, _, hproc⟩ := convertKubeConfig_trace w st clusterName configData p
  constructor
  · intro path args cenv hmem
    rw [htl] at hmem
    rcases List.mem_append.1 hmem with h | h
    · exact .inl h
    · exact .inr (hproc _ _ _ h)
  · intro e he
    rw [htl] at he
    rcases List.mem_append.1 he with h | h
    · exact .inl h
    · exact .inr (hallow e h)

/-- Claim C8 witness: the child-process environment of the concrete
successful run is exactly the ambient HOME and PATH values. -/
theorem convertKubeConfig_env_footprint_witness :
    Event.procRun "/bin/kubelogin"
        ["convert-kubeconfig", "-l", "spn", "--client-id", "cid", "--client-secret",
         "sec", "--tenant-id", "tid", "--kubeconfig", "/tmp/kubeconfig-cluster1"]
        [("HOME", "/root"), ("PATH", "/bin")] ∈ sampleSys.trace ∨
    [("HOME", "/root"), ("PATH", "/bin")] =
      [("HOME", getEnvD sampleSys.env "HOME"), ("PATH", getEnvD sampleSys.env "PATH")] :=
  (convertKubeConfig_env_footprint sampleWorld sampleSys "cluster1" "cfg"
    sampleProvider).1 _ _ _ (by decide)

/-- Claim C9: the temporary file path used by `ConvertKubeConfig` is the
system temp directory joined with "kubeconfig-" plus the cluster name — for a
fixed temp directory it is a function of the cluster name alone, equal for
equal cluster names and distinct for distinct ones — and when the write
succeeds the input configuration bytes are written to exactly that path. -/
theorem convertKubeConfig_tempfile_keyed_by_cluster :
    (∀ tempDir n₁ n₂ : String,
      tempKubeconfigPath tempDir n₁ = tempKubeconfigPath tempDir n₂ ↔ n₁ = n₂) ∧
    (∀ (w : World) (st : Sys) (clusterName configData : String) (p : CredsProvider),
      w.writeOk = true →
      Event.fileWrite (tempKubeconfigPath w.tempDir clusterName) configData ∈
        (ConvertKubeConfig w st clusterName configData (some p)).2.trace) := by
  constructor
  · intro tempDir n₁ n₂
    constructor
    · intro h
      have h2 : (tempKubeconfigPath tempDir n₁).data =
          (tempKubeconfigPath tempDir n₂).data := by rw [h]
      simp only [tempKubeconfigPath, String.data_append, List.append_assoc] at h2
      exact String.ext (List.append_cancel_left (List.append_cancel_left h2))
    · intro h; rw [h]
  · intro w st clusterName configData p hw
    obtain ⟨tl, htl, _, hfw, _⟩ := convertKubeConfig_trace w st clusterName configData p
    rw [htl]
    exact List.mem_append_right _ (hfw hw)

/-- Claim C9 witness: the concrete successful run writes the config bytes to
`/tmp/kubeconfig-cluster1`. -/
theorem convertKubeConfig_tempfile_keyed_by_cluster_witness :
    Event.fileWrite (tempKubeconfigPath "/tmp" "cluster1") "cfg" ∈
      (ConvertKubeConfig sampleWorld sampleSys "cluster1" "cfg"
        (some sampleProvider)).2.trace :=
  convertKubeConfig_tempfile_keyed_by_cluster.2 sampleWorld sampleSys "cluster1" "cfg"
    sampleProvider rfl

/-- Claim C1: a pool with no scaling policy yields a derived spec whose
autoscaling fields (EnableAutoScaling, MinCount, MaxCount) are all absent,
and a pool whose scaling policy has both minimum and maximum set yields a
spec with autoscaling present and exactly those Min/Max values. -/
theorem deriveNodePoolSpec_autoscaling (cluster : ClusterObj) (infraPool : InfraPool) :
    (infraPool.scaling = none →
      (deriveNodePoolSpec cluster infraPool).enableAutoScaling = none ∧
      (deriveNodePoolSpec cluster infraPool).minCount = none ∧
      (deriveNodePoolSpec cluster infraPool).maxCount = none) ∧
    (∀ mn mx : Int, infraPool.scaling = some ⟨some mn, some mx⟩ →
      (deriveNodePoolSpec cluster infraPool).enableAutoScaling = some true ∧
      (deriveNodePoolSpec cluster infraPool).minCount = some mn ∧
      (deriveNodePoolSpec cluster infraPool).maxCount = some mx) := by
  refine ⟨fun h => ?_, fun mn mx h => ?_⟩ <;> simp [deriveNodePoolSpec, h]

/-- Claim C1 witness: the scaled sample pool {min 2, max 10} yields
autoscaling present with exactly 2 and 10. -/
theorem deriveNodePoolSpec_autoscaling_witness :
    (deriveNodePoolSpec sampleCluster scaledPool).enableAutoScaling = some true ∧
    (deriveNodePoolSpec sampleCluster scaledPool).minCount = some 2 ∧
    (deriveNodePoolSpec sampleCluster scaledPool).maxCount = some 10 :=
  (deriveNodePoolSpec_autoscaling sampleCluster scaledPool).2 2 10 rfl

/-- Claim C4: for a cluster with subscription id
00000000-0000-0000-0000-000000000000 and absent resource-group,
virtual-network, and subnet fields, the derived spec's VnetSubnetID is
exactly the template string with empty segments (doubled slashes), by literal
string comparison — for any pool and cluster name. -/
theorem deriveNodePoolSpec_vnetSubnetID (clusterName : String) (infraPool : InfraPool) :
    (deriveNodePoolSpec
      { name := clusterName, subscriptionID := "00000000-0000-0000-0000-000000000000",
        resourceGroup := none, vnetName := none, subnetName := none }
      infraPool).vnetSubnetID =
    "/subscriptions/00000000-0000-0000-0000-000000000000/resourceGroups//providers/Microsoft.Network/virtualNetworks//subnets/" := by
  rfl

/-- Claim C7: every derived node-pool spec has Replicas equal to the fixed
baseline 1, whatever the pool's scaling configuration. -/
theorem deriveNodePoolSpec_replicas (cluster : ClusterObj) (infraPool : InfraPool) :
    (deriveNodePoolSpec cluster infraPool).replicas = 1 := rfl

theorem reconcile_single_failure_aux {σ ε : Type} [DecidableEq σ]
    (specs : List σ) (cloudAPI : σ → Option ε) (s₀ : σ) (e₀ : ε)
    (hcount : specs.count s₀ = 1) (hfail : cloudAPI s₀ = some e₀)
    (hok : ∀ s ∈ specs, s ≠ s₀ → cloudAPI s = none) :
    specs.filterMap (fun s => (cloudAPI s).map (fun e => (s, e))) = [(s₀, e₀)] := by
  induction specs with
  | nil => simp at hcount
  | cons a rest ih =>
    by_cases ha : a = s₀
    · subst ha
      have hrestcount : rest.count a = 0 := by
        have h1 : (a :: rest).count a = rest.count a + 1 := List.count_cons_self a rest
        omega
      have hnotin : a ∉ rest := List.count_eq_zero.1 hrestcount
      have hrest : rest.filterMap (fun s => (cloudAPI s).map (fun e => (s, e))) = [] := by
        rw [List.filterMap_eq_nil_iff]
        intro s hs
        have hne : s ≠ a := fun hh => hnotin (hh ▸ hs)
        simp [hok s (List.mem_cons_of_mem _ hs) hne]
      simp [List.filterMap_cons, hfail, hrest]
    · have hacount : rest.count s₀ = 1 := by
        rw [List.count_cons] at hcount
        simpa [ha] using hcount
      have hnone : cloudAPI a = none :=
        hok a (List.mem_cons_self _ _) ha
      have hrec := ih hacount (fun s hs hne => hok s (List.mem_cons_of_mem _ hs) hne)
      simp [List.filterMap_cons, hnone, hrec]

/-- Claim C2: `reconcileSpecs` attempts every one of the N specs obtained
from the Scope (the attempted list is the whole input list, whatever fails);
when no spec fails the aggregate error is empty; and when exactly one spec
fails, the aggregate error references exactly that one failing spec. -/
theorem reconcileSpecs_aggregate {σ ε : Type} [DecidableEq σ]
    (specs : List σ) (cloudAPI : σ → Option ε) :
    (reconcileSpecs specs cloudAPI).1 = specs ∧
    ((∀ s ∈ specs, cloudAPI s = none) → (reconcileSpecs specs cloudAPI).2 = []) ∧
    (∀ s₀ e₀, specs.count s₀ = 1 → cloudAPI s₀ = some e₀ →
      (∀ s ∈ specs, s ≠ s₀ → cloudAPI s = none) →
      (reconcileSpecs specs cloudAPI).2 = [(s₀, e₀)]) := by
  refine ⟨rfl, ?_, ?_⟩
  · intro h
    simp only [reconcileSpecs]
    rw [List.filterMap_eq_nil_iff]
    intro s hs
    simp [h s hs]
  · intro s₀ e₀ hc hf hok
    exact reconcile_single_failure_aux specs cloudAPI s₀ e₀ hc hf hok

/-- Claim C2 witness: of three specs with exactly the middle one failing, all
three are attempted and the aggregate references exactly the failing one. -/
theorem reconcileSpecs_aggregate_witness :
    (reconcileSpecs ["a", "b", "c"]
      (fun s => if s = "b" then some "cloud API failure" else none)).2 =
      [("b", "cloud API failure")] :=
  (reconcileSpecs_aggregate ["a", "b", "c"]
    (fun s => if s = "b" then some "cloud API failure" else none)).2.2
    "b" "cloud API failure" (by decide) (by decide) (by decide)

end CAPZ
